import Mathlib

/-!
Verification of the ChatNode realtime chat server (`src/server.js`).

The file gives a shallow embedding of the server's core: the append-only
message log (`messages` array plus `saveMessages` write-through), the
presence registry (the `users` object), the socket event handlers
(`user-join`, `get-users`, `chat-message`, `typing`, `stop-typing`,
`disconnect`), the `/api/messages` history endpoint and the `/upload`
endpoint.  Effectful inputs of the JavaScript code (fresh UUIDs,
timestamps, the client IP, and whether the durable write succeeds) are
passed as explicit parameters; socket emissions are recorded as a list of
`Emission` values in the order the code emits them.
-/

set_option maxRecDepth 10000

namespace ChatNode

/-- Models JavaScript `String.prototype.trim`: removes leading and trailing
whitespace from a string (the server calls it on chat message text). -/
def jsTrim (s : String) : String :=
  String.mk (((s.data.dropWhile Char.isWhitespace).reverse.dropWhile
    Char.isWhitespace).reverse)

/-- Models the JavaScript expression `arr.slice(-limit)` as used at
`src/server.js:89` (`messages.slice(-limit)`) and `src/server.js:158`
(`messages.slice(-50)`).  For `limit > 0` JavaScript clamps the negative
start index to `max(length - limit, 0)` and returns the last
`min(limit, length)` elements; `slice(-0)` is `slice(0)` (the whole
array); for `limit < 0` the start index is the positive number `-limit`,
clamped to the length. -/
def jsSliceNeg (limit : Int) (l : List α) : List α :=
  if 0 < limit then l.drop (l.length - limit.toNat) else l.drop (-limit).toNat

/-- The `fileInfo` record built by the `/upload` handler
(`src/server.js:96-103`). -/
structure FileInfo where
  id : String
  filename : String
  originalname : String
  path : String
  size : Nat
  mimetype : String
deriving DecidableEq, Repr

/-- The three shapes of record pushed onto the `messages` array:
chat messages (`src/server.js:171-177`), file messages
(`src/server.js:106-112`) and system messages (`src/server.js:140-145`,
`src/server.js:203-208`). -/
inductive StoredEvent where
  | chat (id username message timestamp : String)
  | file (id username : String) (fileInfo : FileInfo) (timestamp : String)
  | system (id message timestamp : String)
deriving DecidableEq, Repr

/-- Payloads of the named socket events the server emits. -/
inductive Payload where
  | userJoined (username : String)
  | systemMessage (m : StoredEvent)
  | usersList (names : List String)
  | messageHistory (msgs : List StoredEvent)
  | chatMessage (m : StoredEvent)
  | newFile (m : StoredEvent)
  | userLeft (username : String)
  | typing (username : String)
  | stopTyping (username : String)
deriving DecidableEq, Repr

/-- One socket-io emission: `io.emit` (to all), `socket.broadcast.emit`
(to every connected socket except the origin) or `socket.emit` (to one
socket). -/
inductive Emission where
  | toAll (p : Payload)
  | toOthers (origin : String) (p : Payload)
  | toOne (target : String) (p : Payload)
deriving DecidableEq, Repr

/-- Modelled from the spec: the delivery semantics of the transport
(socket-io), which `src/server.js` calls but does not define.  Given the
list of currently connected socket ids, `toAll` delivers to all of them,
`toOthers origin` delivers to every connected socket except `origin`, and
`toOne target` delivers to `target` alone (if connected). -/
def recipients (conns : List String) : Emission → List String
  | .toAll _ => conns
  | .toOthers origin _ => conns.filter (fun c => c != origin)
  | .toOne target _ => conns.filter (fun c => c == target)

/-- JavaScript object property read `m[k]` for the `users` object:
`none` models `undefined`. -/
def objGet : List (String × String) → String → Option String
  | [], _ => none
  | (a, b) :: t, k => if a == k then some b else objGet t k

/-- JavaScript object property assignment `m[k] = v`: an existing key
keeps its position and gets the new value, a new key is appended at the
end (JavaScript string-keyed property order is insertion order). -/
def objInsert : List (String × String) → String → String → List (String × String)
  | [], k, v => [(k, v)]
  | (a, b) :: t, k, v => if a == k then (k, v) :: t else (a, b) :: objInsert t k v

/-- JavaScript `delete m[k]`. -/
def objDelete : List (String × String) → String → List (String × String)
  | [], _ => []
  | (a, b) :: t, k => if a == k then objDelete t k else (a, b) :: objDelete t k

/-- JavaScript `Object.values(m)`: property values in insertion order. -/
def objValues (m : List (String × String)) : List String := m.map Prod.snd

/-- The server's mutable state: the `messages` array (`src/server.js:29`),
the `users` object (`src/server.js:126`), and the contents of
`data/messages.json` as last successfully written (`disk`). -/
structure ServerState where
  messages : List StoredEvent
  users : List (String × String)
  disk : List StoredEvent
deriving DecidableEq, Repr

/-- Models `fs.writeFileSync(MESSAGES_FILE, ...)` inside `saveMessages`
(`src/server.js:41`): succeeds and replaces the file contents, or throws
(modelled as `Except.error`), according to the `diskOk` flag. -/
def writeFile (diskOk : Bool) (content : List StoredEvent) :
    Except String (List StoredEvent) :=
  if diskOk then Except.ok content else Except.error "Error saving messages"

/-- `saveMessages` (`src/server.js:39-45`): tries the durable write and
catches any error, logging it (`console.error`).  Returns the resulting
file contents (unchanged on failure) and whether an error was logged; it
never propagates an exception. -/
def saveMessages (diskOk : Bool) (msgs disk : List StoredEvent) :
    List StoredEvent × Bool :=
  match writeFile diskOk msgs with
  | Except.ok d => (d, false)
  | Except.error _ => (disk, true)

/-- The expression `users[socket.id]`. -/
def usernameOf (st : ServerState) (sid : String) : Option String :=
  objGet st.users sid

/-- The `user-join` handler (`src/server.js:136-159`): registers the
username, appends a system join message, persists, broadcasts
`user-joined` and `system-message` to the others, emits the updated
`users-list` to all, and sends the new client `messages.slice(-50)`.
`nid`/`nts` stand for the fresh UUID and timestamp; the returned `Bool`
records whether `saveMessages` logged a persistence error. -/
def handleUserJoin (sid username clientIp nid nts : String) (diskOk : Bool)
    (st : ServerState) : ServerState × List Emission × Bool :=
  let users' := objInsert st.users sid username
  let joinMessage : StoredEvent :=
    .system nid (username ++ " joined the chat (" ++ clientIp ++ ")") nts
  let messages' := st.messages ++ [joinMessage]
  let sd := saveMessages diskOk messages' st.disk
  (⟨messages', users', sd.1⟩,
   [.toOthers sid (.userJoined username),
    .toOthers sid (.systemMessage joinMessage),
    .toAll (.usersList (objValues users')),
    .toOne sid (.messageHistory (jsSliceNeg 50 messages'))],
   sd.2)

/-- The `get-users` handler (`src/server.js:162-164`). -/
def handleGetUsers (sid : String) (st : ServerState) :
    ServerState × List Emission :=
  (st, [.toOne sid (.usersList (objValues st.users))])

/-- The `chat-message` handler (`src/server.js:167-182`):
`if (!username || !message.trim()) return;` — an unregistered socket
(`users[socket.id]` undefined), an empty registered name (falsy), or
text that trims to the empty string is silently dropped; otherwise the
chat message is appended, persisted, and emitted to all. -/
def handleChatMessage (sid text nid nts : String) (diskOk : Bool)
    (st : ServerState) : ServerState × List Emission × Bool :=
  match usernameOf st sid with
  | none => (st, [], false)
  | some username =>
    if username = "" then (st, [], false)
    else if jsTrim text = "" then (st, [], false)
    else
      let messageObj : StoredEvent := .chat nid username text nts
      let messages' := st.messages ++ [messageObj]
      let sd := saveMessages diskOk messages' st.disk
      (⟨messages', st.users, sd.1⟩, [.toAll (.chatMessage messageObj)], sd.2)

/-- The `typing` handler (`src/server.js:184-189`): if the socket has a
truthy registered username, broadcast it to the others; no state change. -/
def handleTyping (sid : String) (st : ServerState) :
    ServerState × List Emission :=
  match usernameOf st sid with
  | none => (st, [])
  | some username =>
    if username = "" then (st, []) else (st, [.toOthers sid (.typing username)])

/-- The `stop-typing` handler (`src/server.js:191-196`). -/
def handleStopTyping (sid : String) (st : ServerState) :
    ServerState × List Emission :=
  match usernameOf st sid with
  | none => (st, [])
  | some username =>
    if username = "" then (st, [])
    else (st, [.toOthers sid (.stopTyping username)])

/-- The `disconnect` handler (`src/server.js:199-220`): if the socket has
a truthy registered username, append and persist a system leave message,
broadcast `user-left` and `system-message` to the others, delete the
registry entry and emit the updated `users-list` to all; otherwise
(never joined, or registered with a falsy name) do nothing. -/
def handleDisconnect (sid nid nts : String) (diskOk : Bool)
    (st : ServerState) : ServerState × List Emission × Bool :=
  match usernameOf st sid with
  | none => (st, [], false)
  | some username =>
    if username = "" then (st, [], false)
    else
      let leaveMessage : StoredEvent :=
        .system nid (username ++ " left the chat") nts
      let messages' := st.messages ++ [leaveMessage]
      let sd := saveMessages diskOk messages' st.disk
      let users' := objDelete st.users sid
      (⟨messages', users', sd.1⟩,
       [.toOthers sid (.userLeft username),
        .toOthers sid (.systemMessage leaveMessage),
        .toAll (.usersList (objValues users'))],
       sd.2)

/-- The file record multer attaches as `req.file` (fields the handler
reads). -/
structure UploadedFile where
  filename : String
  originalname : String
  size : Nat
  mimetype : String
deriving DecidableEq, Repr

/-- The HTTP response of the `/upload` route: `res.json({success: true,
fileInfo})` or `res.status(400).json({success: false, message})`. -/
inductive UploadResponse where
  | fileOk (info : FileInfo)
  | fileErr (status : Nat) (message : String)
deriving DecidableEq, Repr

/-- The `/upload` handler (`src/server.js:94-123`): with a file present it
builds the `fileInfo` and file message, appends, persists, emits
`new-file` to all and answers success; with no file it answers 400 and
touches nothing.  `fid`/`mid` are the two fresh UUIDs, `ts` the
timestamp. -/
def handleUpload (file : Option UploadedFile) (username fid mid ts : String)
    (diskOk : Bool) (st : ServerState) :
    ServerState × List Emission × UploadResponse × Bool :=
  match file with
  | some f =>
    let fileInfo : FileInfo :=
      ⟨fid, f.filename, f.originalname, "/uploads/" ++ f.filename, f.size,
       f.mimetype⟩
    let fileMessage : StoredEvent := .file mid username fileInfo ts
    let messages' := st.messages ++ [fileMessage]
    let sd := saveMessages diskOk messages' st.disk
    (⟨messages', st.users, sd.1⟩, [.toAll (.newFile fileMessage)],
     .fileOk fileInfo, sd.2)
  | none => (st, [], .fileErr 400 "No file uploaded", false)

/-- The `/api/messages` route (`src/server.js:86-91`):
`const limit = parseInt(req.query.limit) || 50` (a missing or non-numeric
query gives `NaN`, modelled as `none`; `0` is falsy; both fall back to
`50`), then `messages.slice(-limit)` is returned.  The second component
is the `messages` array after the request: `slice` does not mutate it. -/
def getHistory (rawLimit : Option Int) (messages : List StoredEvent) :
    List StoredEvent × List StoredEvent :=
  let limit : Int :=
    match rawLimit with
    | none => 50
    | some v => if v = 0 then 50 else v
  (jsSliceNeg limit messages, messages)

/-- The `message-history` payload sent by a batch of emissions, if any:
the first `toOne _ (messageHistory h)` entry. -/
def sentHistory : List Emission → Option (List StoredEvent)
  | [] => none
  | .toOne _ (.messageHistory h) :: _ => some h
  | _ :: rest => sentHistory rest

/-! ### Helper lemmas about the JavaScript object model and `slice` -/

theorem objGet_objInsert_self (m : List (String × String)) (k v : String) :
    objGet (objInsert m k v) k = some v := by
  induction m with
  | nil => simp [objInsert, objGet]
  | cons p t ih =>
    obtain ⟨a, b⟩ := p
    by_cases h : a = k
    · simp [objInsert, objGet, h]
    · simp [objInsert, objGet, h, ih]

theorem objGet_objDelete_self (m : List (String × String)) (k : String) :
    objGet (objDelete m k) k = none := by
  induction m with
  | nil => simp [objDelete, objGet]
  | cons p t ih =>
    obtain ⟨a, b⟩ := p
    by_cases h : a = k
    · simp [objDelete, h, ih]
    · simp [objDelete, objGet, h, ih]

theorem objGet_objDelete_ne (m : List (String × String)) (k k' : String)
    (h : k' ≠ k) : objGet (objDelete m k) k' = objGet m k' := by
  induction m with
  | nil => simp [objDelete]
  | cons p t ih =>
    obtain ⟨a, b⟩ := p
    by_cases hak : a = k
    · subst hak
      simp [objDelete, objGet, ih, Ne.symm h]
    · by_cases hak' : a = k'
      · subst hak'
        simp [objDelete, objGet, hak]
      · simp [objDelete, objGet, hak, hak', ih]

theorem objDelete_of_objGet_none (m : List (String × String)) (k : String)
    (h : objGet m k = none) : objDelete m k = m := by
  induction m with
  | nil => simp [objDelete]
  | cons p t ih =>
    obtain ⟨a, b⟩ := p
    by_cases hak : a = k
    · simp [objGet, hak] at h
    · simp [objGet, hak] at h
      simp [objDelete, hak, ih h, beq_iff_eq]

theorem objInsert_of_objGet_none (m : List (String × String)) (k v : String)
    (h : objGet m k = none) : objInsert m k v = m ++ [(k, v)] := by
  induction m with
  | nil => simp [objInsert]
  | cons p t ih =>
    obtain ⟨a, b⟩ := p
    by_cases hak : a = k
    · simp [objGet, hak] at h
    · simp [objGet, hak] at h
      simp [objInsert, hak, ih h, beq_iff_eq]

theorem objDelete_objInsert_of_none (m : List (String × String)) (k v : String)
    (h : objGet m k = none) : objDelete (objInsert m k v) k = m := by
  induction m with
  | nil => simp [objInsert, objDelete]
  | cons p t ih =>
    obtain ⟨a, b⟩ := p
    by_cases hak : a = k
    · simp [objGet, hak] at h
    · simp [objGet, hak] at h
      simp [objInsert, objDelete, hak, ih h, beq_iff_eq]

theorem mem_objValues_objInsert (m : List (String × String)) (k v : String) :
    v ∈ objValues (objInsert m k v) := by
  induction m with
  | nil => simp [objInsert, objValues]
  | cons p t ih =>
    obtain ⟨a, b⟩ := p
    by_cases hak : a = k
    · simp [objInsert, objValues, hak]
    · simp only [objInsert, beq_iff_eq, if_neg hak]
      simp only [objValues, List.map_cons, List.mem_cons]
      right
      simpa [objValues] using ih

theorem jsSliceNeg_eq_drop_of_pos (n : Int) (l : List α) (h : 0 < n) :
    jsSliceNeg n l = l.drop (l.length - n.toNat) := by
  simp [jsSliceNeg, h]

theorem jsSliceNeg_suffix (n : Int) (l : List α) : jsSliceNeg n l <:+ l := by
  unfold jsSliceNeg
  split <;> exact List.drop_suffix _ _

theorem length_jsSliceNeg_of_pos (n : Int) (l : List α) (h : 0 < n) :
    (jsSliceNeg n l).length = min n.toNat l.length := by
  rw [jsSliceNeg_eq_drop_of_pos n l h, List.length_drop]
  omega

theorem users_handleChatMessage (sid text nid nts : String) (diskOk : Bool)
    (st : ServerState) :
    ((handleChatMessage sid text nid nts diskOk st).1).users = st.users := by
  unfold handleChatMessage
  rcases h : usernameOf st sid with _ | u
  · rfl
  · by_cases hu : u = "" <;> by_cases ht : jsTrim text = "" <;> simp [hu, ht]

/-! ### Claim C1: replay on join -/

/-- A server state in which one socket `"a"` is registered as `"alice"`
and the log is empty. -/
def joinedAliceState : ServerState := ⟨[], [("a", "alice")], []⟩

/-- The state after 60 sequential successful `chat-message` submissions
from `"alice"`. -/
def sixtyChatsState : ServerState :=
  (List.range 60).foldl
    (fun s _ => (handleChatMessage "a" "hello" "cid" "cts" true s).1)
    joinedAliceState

/-- C1 (counterexample): after 60 sequential chat messages the store holds
exactly those 60 chat events, yet the `message-history` replay sent to a
new joiner is NOT the last 50 chat messages of that store: `user-join`
first appends the joiner's own system join message and only then takes
`messages.slice(-50)`, so the replay is the last 49 chat messages followed
by the join notice. -/
theorem replay_after_sixty_chats_not_last_fifty_chats :
    sixtyChatsState.messages =
      List.replicate 60 (StoredEvent.chat "cid" "alice" "hello" "cts") ∧
    sentHistory
        (handleUserJoin "b" "bob" "ip" "jid" "jts" true sixtyChatsState).2.1 =
      some (List.replicate 49 (StoredEvent.chat "cid" "alice" "hello" "cts") ++
        [StoredEvent.system "jid" "bob joined the chat (ip)" "jts"]) ∧
    sentHistory
        (handleUserJoin "b" "bob" "ip" "jid" "jts" true sixtyChatsState).2.1 ≠
      some (jsSliceNeg 50 sixtyChatsState.messages) := by
  refine ⟨by decide, by decide, by decide⟩

/-- C1 (amended): the replay sent to a newly joined client is the most
recent 50 events of the Message Store as of after the joiner's own system
join message has been appended (or all of them if fewer than 50 exist),
in original append order: it is a suffix of the post-append log with
length `min 50 (length + 1)`. -/
theorem replay_on_join_is_recent_fifty_of_log (st : ServerState)
    (sid username clientIp nid nts : String) (diskOk : Bool) :
    sentHistory (handleUserJoin sid username clientIp nid nts diskOk st).2.1 =
      some (jsSliceNeg 50 (st.messages ++
        [StoredEvent.system nid
          (username ++ " joined the chat (" ++ clientIp ++ ")") nts])) ∧
    jsSliceNeg 50 (st.messages ++
        [StoredEvent.system nid
          (username ++ " joined the chat (" ++ clientIp ++ ")") nts]) <:+
      (st.messages ++
        [StoredEvent.system nid
          (username ++ " joined the chat (" ++ clientIp ++ ")") nts]) ∧
    (jsSliceNeg 50 (st.messages ++
        [StoredEvent.system nid
          (username ++ " joined the chat (" ++ clientIp ++ ")") nts])).length =
      min 50 (st.messages.length + 1) := by
  refine ⟨rfl, jsSliceNeg_suffix _ _, ?_⟩
  have h := length_jsSliceNeg_of_pos 50
    (st.messages ++
      [StoredEvent.system nid
        (username ++ " joined the chat (" ++ clientIp ++ ")") nts])
    (by norm_num)
  simpa using h

/-! ### Claim C2: `RecentSlice` via `/api/messages` -/

/-- C2 (counterexample): at `n = 0` the claim fails: `parseInt('0') || 50`
falls back to the default 50, so the endpoint returns the whole one-event
store rather than the empty "last `min(0, 1)` events" slice. -/
theorem recentSlice_zero_not_empty :
    (getHistory (some 0) [StoredEvent.chat "i" "u" "m" "t"]).1 =
      [StoredEvent.chat "i" "u" "m" "t"] ∧
    (getHistory (some 0) [StoredEvent.chat "i" "u" "m" "t"]).1 ≠ [] := by
  refine ⟨by decide, by decide⟩

/-- C2 (amended): for every store contents and every requested limit
`n ≥ 1`, the history returned by `/api/messages` is exactly the last
`min(n, total)` appended events in original append order (a suffix of the
store of that length), and the stored sequence is identical before and
after the call. -/
theorem recentSlice_pos_returns_last_min (n : Int) (l : List StoredEvent)
    (h : 1 ≤ n) :
    (getHistory (some n) l).1 <:+ l ∧
    ((getHistory (some n) l).1).length = min n.toNat l.length ∧
    (getHistory (some n) l).2 = l := by
  have hn0 : ¬n = 0 := by omega
  have hpos : (0 : Int) < n := by omega
  refine ⟨?_, ?_, rfl⟩
  · simpa [getHistory, hn0] using jsSliceNeg_suffix n l
  · simp [getHistory, hn0, length_jsSliceNeg_of_pos n l hpos]

/-- Witness for C2 (amended) at `n = 2` on a three-event store. -/
theorem recentSlice_pos_returns_last_min_witness :
    (1 : Int) ≤ 2 ∧
    ((getHistory (some 2)
        [StoredEvent.chat "a" "u" "x" "t1", StoredEvent.chat "b" "u" "y" "t2",
         StoredEvent.chat "c" "u" "z" "t3"]).1 <:+
      [StoredEvent.chat "a" "u" "x" "t1", StoredEvent.chat "b" "u" "y" "t2",
       StoredEvent.chat "c" "u" "z" "t3"] ∧
    ((getHistory (some 2)
        [StoredEvent.chat "a" "u" "x" "t1", StoredEvent.chat "b" "u" "y" "t2",
         StoredEvent.chat "c" "u" "z" "t3"]).1).length =
      min (2 : Int).toNat
        [StoredEvent.chat "a" "u" "x" "t1", StoredEvent.chat "b" "u" "y" "t2",
         StoredEvent.chat "c" "u" "z" "t3"].length ∧
    (getHistory (some 2)
        [StoredEvent.chat "a" "u" "x" "t1", StoredEvent.chat "b" "u" "y" "t2",
         StoredEvent.chat "c" "u" "z" "t3"]).2 =
      [StoredEvent.chat "a" "u" "x" "t1", StoredEvent.chat "b" "u" "y" "t2",
       StoredEvent.chat "c" "u" "z" "t3"]) :=
  ⟨by norm_num,
   recentSlice_pos_returns_last_min 2
     [StoredEvent.chat "a" "u" "x" "t1", StoredEvent.chat "b" "u" "y" "t2",
      StoredEvent.chat "c" "u" "z" "t3"] (by norm_num)⟩

/-! ### Claim C3: blank or unauthenticated chat is dropped -/

/-- C3 (confirmed): a `chat-message` from a socket with no registered
display name, or whose text trims to the empty string, changes nothing:
the returned state is the input state (Message Store, Presence Registry
and disk untouched), nothing is emitted, and no error is logged; the
handler is a total function, so no exception is raised. -/
theorem chat_dropped_when_no_name_or_blank (st : ServerState)
    (sid text nid nts : String) (diskOk : Bool)
    (h : usernameOf st sid = none ∨ jsTrim text = "") :
    handleChatMessage sid text nid nts diskOk st = (st, [], false) := by
  unfold handleChatMessage
  rcases h with h | h
  · simp [h]
  · rcases hu : usernameOf st sid with _ | u
    · rfl
    · by_cases hue : u = "" <;> simp [hue, h]

/-- Witness for C3: a registered user submits whitespace-only text. -/
theorem chat_dropped_when_no_name_or_blank_witness :
    (usernameOf ⟨[], [("s", "alice")], []⟩ "s" = none ∨ jsTrim "   " = "") ∧
    handleChatMessage "s" "   " "n" "t" true ⟨[], [("s", "alice")], []⟩ =
      (⟨[], [("s", "alice")], []⟩, [], false) :=
  ⟨Or.inr (by decide),
   chat_dropped_when_no_name_or_blank ⟨[], [("s", "alice")], []⟩ "s" "   "
     "n" "t" true (Or.inr (by decide))⟩

/-! ### Claim C4: `toOthers` delivery -/

/-- C4 (confirmed): a `toOthers` emission (socket-io
`socket.broadcast.emit`) is delivered to a connected socket exactly when
it is not the origin: every other currently connected client receives it
and the origin never does. -/
theorem toOthers_delivers_to_all_but_origin (conns : List String)
    (origin : String) (p : Payload) (c : String) :
    (c ∈ recipients conns (Emission.toOthers origin p) ↔
      c ∈ conns ∧ c ≠ origin) ∧
    origin ∉ recipients conns (Emission.toOthers origin p) := by
  constructor
  · simp [recipients, List.mem_filter]
  · simp [recipients, List.mem_filter]

/-! ### Claim C5: join/leave round trip on the Presence Registry -/

/-- C5 (counterexample): the round trip is not the identity on every
registry state.  Left conjunct: socket `"s"` is already registered as
`"alice"`; a second `user-join` as `"bob"` overwrites the entry and the
disconnect deletes it, so the registry ends empty instead of restoring
`[("s", "alice")]`.  Right conjunct: joining with the empty (falsy) name
leaves an entry that `disconnect` never deletes. -/
theorem join_leave_roundtrip_not_identity :
    ((handleDisconnect "s" "n2" "t2" true
        (handleUserJoin "s" "bob" "ip" "n1" "t1" true
          ⟨[], [("s", "alice")], []⟩).1).1).users ≠ [("s", "alice")] ∧
    ((handleDisconnect "s" "n2" "t2" true
        (handleUserJoin "s" "" "ip" "n1" "t1" true ⟨[], [], []⟩).1).1).users ≠
      ([] : List (String × String)) := by
  refine ⟨by decide, by decide⟩

/-- C5 (amended): for a connection identity not currently registered and a
non-empty (truthy) display name, `user-join` immediately followed by
`disconnect` leaves the Presence Registry in exactly the state it had
before the join. -/
theorem join_then_leave_restores_registry (st : ServerState)
    (sid name clientIp nid1 nts1 nid2 nts2 : String) (d1 d2 : Bool)
    (hfresh : usernameOf st sid = none) (hname : name ≠ "") :
    ((handleDisconnect sid nid2 nts2 d2
        (handleUserJoin sid name clientIp nid1 nts1 d1 st).1).1).users =
      st.users := by
  have hlook :
      usernameOf ((handleUserJoin sid name clientIp nid1 nts1 d1 st).1) sid =
        some name := objGet_objInsert_self st.users sid name
  unfold handleDisconnect
  simp only [hlook, hname, if_false, reduceIte]
  exact objDelete_objInsert_of_none st.users sid name hfresh

/-- Witness for C5 (amended): fresh socket `"s"`, name `"bob"`, a registry
holding an unrelated entry. -/
theorem join_then_leave_restores_registry_witness :
    usernameOf ⟨[], [("x", "eve")], []⟩ "s" = none ∧ "bob" ≠ "" ∧
    ((handleDisconnect "s" "n2" "t2" true
        (handleUserJoin "s" "bob" "ip" "n1" "t1" true
          ⟨[], [("x", "eve")], []⟩).1).1).users = [("x", "eve")] :=
  ⟨by decide, by decide,
   join_then_leave_restores_registry ⟨[], [("x", "eve")], []⟩ "s" "bob" "ip"
     "n1" "t1" "n2" "t2" true true (by decide) (by decide)⟩

/-! ### Claim C6: persistence failure is swallowed -/

/-- C6 (confirmed): when the durable write fails, `fs.writeFileSync`
throws but `saveMessages` catches the error and only logs it (it returns
normally with the logged flag set and the durable copy unchanged); the
appended chat event stays in the in-memory sequence, the broadcast still
happens, and a subsequent append on the resulting state still works. -/
theorem append_persist_failure_swallowed (st : ServerState)
    (sid u text nid nts : String) (hu : usernameOf st sid = some u)
    (hue : u ≠ "") (ht : jsTrim text ≠ "") :
    writeFile false (st.messages ++ [StoredEvent.chat nid u text nts]) =
      Except.error "Error saving messages" ∧
    saveMessages false (st.messages ++ [StoredEvent.chat nid u text nts])
        st.disk = (st.disk, true) ∧
    handleChatMessage sid text nid nts false st =
      (⟨st.messages ++ [StoredEvent.chat nid u text nts], st.users, st.disk⟩,
       [Emission.toAll (Payload.chatMessage (StoredEvent.chat nid u text nts))],
       true) ∧
    (∀ text2 nid2 nts2 : String, jsTrim text2 ≠ "" →
      ((handleChatMessage sid text2 nid2 nts2 true
          (handleChatMessage sid text nid nts false st).1).1).messages =
        st.messages ++ [StoredEvent.chat nid u text nts,
          StoredEvent.chat nid2 u text2 nts2]) := by
  have hstep : handleChatMessage sid text nid nts false st =
      (⟨st.messages ++ [StoredEvent.chat nid u text nts], st.users, st.disk⟩,
       [Emission.toAll (Payload.chatMessage (StoredEvent.chat nid u text nts))],
       true) := by
    unfold handleChatMessage
    simp [hu, hue, ht, saveMessages, writeFile]
  refine ⟨rfl, rfl, hstep, ?_⟩
  intro text2 nid2 nts2 ht2
  rw [hstep]
  have hu2 : usernameOf
      (⟨st.messages ++ [StoredEvent.chat nid u text nts], st.users, st.disk⟩ :
        ServerState) sid = some u := hu
  unfold handleChatMessage
  simp [hu2, hue, ht2, saveMessages, writeFile]

/-- Witness for C6: `"alice"` sends `"hi"` while the disk is failing, then
`"again"` after it recovers. -/
theorem append_persist_failure_swallowed_witness :
    usernameOf ⟨[], [("s", "alice")], []⟩ "s" = some "alice" ∧
    "alice" ≠ "" ∧ jsTrim "hi" ≠ "" ∧ jsTrim "again" ≠ "" ∧
    handleChatMessage "s" "hi" "n" "t" false ⟨[], [("s", "alice")], []⟩ =
      (⟨[StoredEvent.chat "n" "alice" "hi" "t"], [("s", "alice")], []⟩,
       [Emission.toAll (Payload.chatMessage
          (StoredEvent.chat "n" "alice" "hi" "t"))], true) ∧
    ((handleChatMessage "s" "again" "n2" "t2" true
        (handleChatMessage "s" "hi" "n" "t" false
          ⟨[], [("s", "alice")], []⟩).1).1).messages =
      [StoredEvent.chat "n" "alice" "hi" "t",
       StoredEvent.chat "n2" "alice" "again" "t2"] :=
  ⟨by decide, by decide, by decide, by decide,
   (append_persist_failure_swallowed ⟨[], [("s", "alice")], []⟩ "s" "alice"
      "hi" "n" "t" (by decide) (by decide) (by decide)).2.2.1,
   by
    have h := (append_persist_failure_swallowed ⟨[], [("s", "alice")], []⟩ "s"
      "alice" "hi" "n" "t" (by decide) (by decide) (by decide)).2.2.2 "again"
      "n2" "t2" (by decide)
    simpa using h⟩

/-! ### Claim C7: typing indicators are ephemeral -/

/-- C7 (confirmed): a `typing` or `stop-typing` event from a socket
registered with a truthy name leaves the whole server state (Message
Store, registry, disk) unchanged and emits exactly one broadcast-to-others
indicator, which is never delivered to the originator. -/
theorem typing_unpersisted_broadcast_others (st : ServerState)
    (sid u : String) (hu : usernameOf st sid = some u) (hue : u ≠ "") :
    handleTyping sid st = (st, [Emission.toOthers sid (Payload.typing u)]) ∧
    handleStopTyping sid st =
      (st, [Emission.toOthers sid (Payload.stopTyping u)]) ∧
    (∀ conns : List String,
      sid ∉ recipients conns (Emission.toOthers sid (Payload.typing u)) ∧
      sid ∉ recipients conns (Emission.toOthers sid (Payload.stopTyping u))) := by
  refine ⟨?_, ?_, ?_⟩
  · unfold handleTyping
    simp [hu, hue]
  · unfold handleStopTyping
    simp [hu, hue]
  · intro conns
    constructor <;> simp [recipients, List.mem_filter]

/-- Witness for C7 at a concrete joined state. -/
theorem typing_unpersisted_broadcast_others_witness :
    usernameOf ⟨[], [("s", "alice")], []⟩ "s" = some "alice" ∧ "alice" ≠ "" ∧
    handleTyping "s" ⟨[], [("s", "alice")], []⟩ =
      (⟨[], [("s", "alice")], []⟩,
       [Emission.toOthers "s" (Payload.typing "alice")]) ∧
    "s" ∉ recipients ["s", "b"]
      (Emission.toOthers "s" (Payload.typing "alice")) :=
  ⟨by decide, by decide,
   (typing_unpersisted_broadcast_others ⟨[], [("s", "alice")], []⟩ "s" "alice"
      (by decide) (by decide)).1,
   ((typing_unpersisted_broadcast_others ⟨[], [("s", "alice")], []⟩ "s" "alice"
      (by decide) (by decide)).2.2 ["s", "b"]).1⟩

/-! ### Claim C8: upload with no file payload -/

/-- C8 (confirmed): an upload request with no file payload is answered
with a 400 `"No file uploaded"` error to the requester only: no `File`
event is built, the state (Message Store, registry, disk) is returned
unchanged, nothing is emitted, and nothing is logged. -/
theorem upload_without_file_rejected (st : ServerState)
    (username fid mid ts : String) (diskOk : Bool) :
    handleUpload none username fid mid ts diskOk st =
      (st, [], UploadResponse.fileErr 400 "No file uploaded", false) := rfl

/-! ### Claim C9: display-name stability -/

/-- C9 (counterexample): the registered display name is not immutable
after the first join: a second `user-join` on the same socket overwrites
it (`users[socket.id] = username`). -/
theorem rejoin_overwrites_display_name :
    usernameOf ((handleUserJoin "s" "alice" "ip" "n1" "t1" true
        ⟨[], [], []⟩).1) "s" = some "alice" ∧
    usernameOf ((handleUserJoin "s" "bob" "ip" "n2" "t2" true
        (handleUserJoin "s" "alice" "ip" "n1" "t1" true
          ⟨[], [], []⟩).1).1) "s" = some "bob" ∧
    usernameOf ((handleUserJoin "s" "bob" "ip" "n2" "t2" true
        (handleUserJoin "s" "alice" "ip" "n1" "t1" true
          ⟨[], [], []⟩).1).1) "s" ≠ some "alice" := by
  refine ⟨by decide, by decide, by decide⟩

/-- C9 (amended): no inbound event other than a subsequent `user-join`
alters a connection's registered display name: `chat-message` leaves the
registry untouched, `typing`, `stop-typing` and `get-users` leave the
whole state untouched, and `disconnect` either leaves the name unchanged
or removes the entry — it never rebinds it to a different name. -/
theorem display_name_changed_only_by_join (st : ServerState)
    (sid sidOther text nid nts : String) (d : Bool) :
    ((handleChatMessage sidOther text nid nts d st).1).users = st.users ∧
    (handleTyping sidOther st).1 = st ∧
    (handleStopTyping sidOther st).1 = st ∧
    (handleGetUsers sidOther st).1 = st ∧
    (usernameOf ((handleDisconnect sidOther nid nts d st).1) sid =
        usernameOf st sid ∨
      usernameOf ((handleDisconnect sidOther nid nts d st).1) sid = none) := by
  refine ⟨users_handleChatMessage sidOther text nid nts d st, ?_, ?_, rfl, ?_⟩
  · unfold handleTyping
    rcases h : usernameOf st sidOther with _ | u
    · rfl
    · by_cases hu : u = "" <;> simp [hu]
  · unfold handleStopTyping
    rcases h : usernameOf st sidOther with _ | u
    · rfl
    · by_cases hu : u = "" <;> simp [hu]
  · unfold handleDisconnect
    rcases h : usernameOf st sidOther with _ | u
    · exact Or.inl rfl
    · dsimp only
      by_cases hu : u = ""
      · rw [if_pos hu]
        exact Or.inl rfl
      · rw [if_neg hu]
        by_cases hss : sid = sidOther
        · subst hss
          exact Or.inr (objGet_objDelete_self st.users sid)
        · exact Or.inl (objGet_objDelete_ne st.users sidOther sid hss)

/-! ### Claim C10: joining with an empty display name -/

/-- C10 (confirmed): `user-join` with the empty string registers the entry
(the empty name shows up in the `users-list` snapshot values), yet any
socket whose registered name is the empty string has its `chat-message`,
`typing` and `stop-typing` events silently dropped — with exactly the same
result as a socket that never joined at all. -/
theorem empty_name_join_registered_but_ignored (st : ServerState)
    (sid clientIp nid nts text nid2 nts2 : String) (d d2 : Bool) :
    usernameOf ((handleUserJoin sid "" clientIp nid nts d st).1) sid =
      some "" ∧
    "" ∈ objValues ((handleUserJoin sid "" clientIp nid nts d st).1).users ∧
    (∀ st2 : ServerState, usernameOf st2 sid = some "" →
      handleChatMessage sid text nid2 nts2 d2 st2 = (st2, [], false) ∧
      handleTyping sid st2 = (st2, []) ∧
      handleStopTyping sid st2 = (st2, [])) ∧
    (∀ st3 : ServerState, usernameOf st3 sid = none →
      handleChatMessage sid text nid2 nts2 d2 st3 = (st3, [], false) ∧
      handleTyping sid st3 = (st3, []) ∧
      handleStopTyping sid st3 = (st3, [])) := by
  refine ⟨objGet_objInsert_self st.users sid "",
    mem_objValues_objInsert st.users sid "", ?_, ?_⟩
  · intro st2 h2
    refine ⟨?_, ?_, ?_⟩
    · unfold handleChatMessage
      simp [h2]
    · unfold handleTyping
      simp [h2]
    · unfold handleStopTyping
      simp [h2]
  · intro st3 h3
    refine ⟨?_, ?_, ?_⟩
    · unfold handleChatMessage
      simp [h3]
    · unfold handleTyping
      simp [h3]
    · unfold handleStopTyping
      simp [h3]

/-- Witness for C10: the empty-name join on a fresh server, and the
resulting dropped chat and typing events. -/
theorem empty_name_join_registered_but_ignored_witness :
    usernameOf ((handleUserJoin "s" "" "ip" "n" "t" true ⟨[], [], []⟩).1)
      "s" = some "" ∧
    handleChatMessage "s" "hello" "n2" "t2" true ⟨[], [("s", "")], []⟩ =
      (⟨[], [("s", "")], []⟩, [], false) ∧
    handleTyping "s" ⟨[], [("s", "")], []⟩ = (⟨[], [("s", "")], []⟩, []) ∧
    handleChatMessage "s" "hello" "n2" "t2" true ⟨[], [], []⟩ =
      (⟨[], [], []⟩, [], false) :=
  ⟨(empty_name_join_registered_but_ignored ⟨[], [], []⟩ "s" "ip" "n" "t"
      "hello" "n2" "t2" true true).1,
   ((empty_name_join_registered_but_ignored ⟨[], [], []⟩ "s" "ip" "n" "t"
      "hello" "n2" "t2" true true).2.2.1 ⟨[], [("s", "")], []⟩ (by decide)).1,
   ((empty_name_join_registered_but_ignored ⟨[], [], []⟩ "s" "ip" "n" "t"
      "hello" "n2" "t2" true true).2.2.1 ⟨[], [("s", "")], []⟩
      (by decide)).2.1,
   ((empty_name_join_registered_but_ignored ⟨[], [], []⟩ "s" "ip" "n" "t"
      "hello" "n2" "t2" true true).2.2.2 ⟨[], [], []⟩ (by decide)).1⟩

end ChatNode
